import Mathlib

/-!
# FakePrinter — verification of the three drivers

Shallow embedding of the `Fake_Printer` repository
(`src/normal_driver.py`, `src/multi_driver.py`, `src/smart_driver.py`).

A CSV row is a `WorkRecord`; the filesystem / network environment of one
row is a `RowEnv` (whether the data-file write and the image fetch
succeed).  The per-layer processors (`fetch_layer_supervised`,
`print_layer_async`, `print_layer`), the mode loops (sequential
supervised, sequential-with-delay automatic, fully concurrent automatic,
prefetch-paced supervised) and the `run` dispatch are translated
function by function.

The prefetch scheduler of `smart_driver.supervised_mode_async` is
modelled as a state machine over `SchedState`: the dict of pending
`asyncio` tasks becomes the list of row indices whose task is in flight
(a task's eventual result is a pure function of its row, so the dict's
values are determined by its keys).  Awaiting `prefetched[current_index]`
returns exactly that row's outcome no matter in which order the
underlying tasks finish, so completion order does not appear in the
model.  The `while` loops are written with an explicit fuel argument
(the loops advance `next_index_to_prefetch` resp. `current_index`, both
bounded by `total`, so fuel `total + 1` is always sufficient); this
keeps every definition structurally recursive and executable.
-/

set_option autoImplicit false

namespace FakePrinter

/-- Python's `str.strip()`: drop leading and trailing whitespace
(written over `List Char` so it is kernel-computable). -/
def stripChars (l : List Char) : List Char :=
  ((l.dropWhile Char.isWhitespace).reverse.dropWhile Char.isWhitespace).reverse

/-- Python's `str.lower()` (per-character ASCII lowercasing). -/
def pyLower (s : String) : String := ⟨s.data.map Char.toLower⟩

/-- Python's `s.strip().lower()`, as applied to every interactive input. -/
def normInput (s : String) : String := ⟨(stripChars s.data).map Char.toLower⟩

/-- Result of one side-effecting step (a file write or an image fetch):
either it succeeds or it raises an exception carrying a message. -/
inductive IOResult where
  | ok : IOResult
  | err : String → IOResult
deriving DecidableEq, Repr

/-- One CSV row.  `layerNumber` models `layer.get("Layer Number", ...)`
(`none` = column missing), `imageUrl` models `layer.get("image url", ...)`
(`none` or empty string = no image), `errorField` models
`layer.get("Error", ...)` (`none` or `"SUCCESS"` = no inherent error). -/
structure WorkRecord where
  layerNumber : Option String
  imageUrl : Option String
  errorField : Option String
deriving DecidableEq, Repr

/-- The environment one row's processing runs against: whether the
`layer_data.txt` write succeeds and whether the image download
(including `raise_for_status` and the image write) succeeds. -/
structure RowEnv where
  write : IOResult
  fetch : IOResult
deriving DecidableEq, Repr

/-- The tuple `(layer_number, success_flag, error_message)` returned by
the async processors. -/
structure LayerOutcome where
  layerNumber : String
  success : Bool
  error : Option String
deriving DecidableEq, Repr

/-- `smart_driver.FakePrinter.fetch_layer_supervised`: write the layer
data (failure short-circuits), remember whether the `Error` column is a
non-`"SUCCESS"` value, download the image when a URL is present (failure
short-circuits), and finally report the inherent CSV error if any. -/
def fetch_layer_supervised (layer : WorkRecord) (wres fres : IOResult) : LayerOutcome :=
  let layer_number := layer.layerNumber.getD "unknown"
  match wres with
  | .err e => ⟨layer_number, false, some ("Error writing layer data: " ++ e)⟩
  | .ok =>
    let csv_error := layer.errorField.getD "SUCCESS"
    let inherent_error := csv_error ≠ "SUCCESS"
    let image_url := layer.imageUrl.getD ""
    if image_url ≠ "" then
      match fres with
      | .err e => ⟨layer_number, false, some ("Error downloading image: " ++ e)⟩
      | .ok =>
        if inherent_error then
          ⟨layer_number, false, some ("Inherent CSV error: " ++ csv_error)⟩
        else
          ⟨layer_number, true, none⟩
    else
      if inherent_error then
        ⟨layer_number, false, some ("Inherent CSV error: " ++ csv_error)⟩
      else
        ⟨layer_number, true, none⟩

/-- `multi_driver.FakePrinter.print_layer_async`: same steps and the same
precedence as `fetch_layer_supervised` (write, inherent flag, image,
inherent check). -/
def print_layer_async (layer : WorkRecord) (wres fres : IOResult) : LayerOutcome :=
  let layer_number := layer.layerNumber.getD "unknown"
  match wres with
  | .err e => ⟨layer_number, false, some ("Error writing layer data: " ++ e)⟩
  | .ok =>
    let csv_error := layer.errorField.getD "SUCCESS"
    let inherent_error := csv_error ≠ "SUCCESS"
    let image_url := layer.imageUrl.getD ""
    if image_url ≠ "" then
      match fres with
      | .err e => ⟨layer_number, false, some ("Error downloading image: " ++ e)⟩
      | .ok =>
        if inherent_error then
          ⟨layer_number, false, some ("Inherent CSV error: " ++ csv_error)⟩
        else
          ⟨layer_number, true, none⟩
    else
      if inherent_error then
        ⟨layer_number, false, some ("Inherent CSV error: " ++ csv_error)⟩
      else
        ⟨layer_number, true, none⟩

/-- What one call of the sequential `print_layer` did: whether the layer
was counted successful, the `error_log` entry it appended (if any), and
which I/O steps ran (`wroteData` = the `layer_data.txt` write succeeded,
`attemptedFetch` = an image download was started, `wroteImage` = the
image file was written). -/
structure PrintResult where
  success : Bool
  logEntry : Option String
  wroteData : Bool
  attemptedFetch : Bool
  wroteImage : Bool
deriving DecidableEq, Repr

/-- `normal_driver.FakePrinter.print_layer` (the same function appears in
`multi_driver` and `smart_driver`): write the data file (failure counts
the layer failed and returns), then download the image when a URL is
present (failure counts the layer failed, success counts it successful),
otherwise count the layer successful with data only.  Note: this
function never consults the `Error` column. -/
def print_layer (layer : WorkRecord) (env : RowEnv) : PrintResult :=
  let layer_number := layer.layerNumber.getD "unknown"
  match env.write with
  | .err e =>
    ⟨false, some ("Layer " ++ layer_number ++ ": Error writing data: " ++ e),
      false, false, false⟩
  | .ok =>
    let image_url := layer.imageUrl.getD ""
    if image_url ≠ "" then
      match env.fetch with
      | .err e => ⟨false, some ("Layer " ++ layer_number ++ ": " ++ e), true, true, false⟩
      | .ok => ⟨true, none, true, true, true⟩
    else
      ⟨true, none, true, false, false⟩

/-- The counters and error log owned by the `FakePrinter` object. -/
structure PrinterState where
  successful_layers : Nat
  failed_layers : Nat
  error_log : List String
deriving DecidableEq, Repr

/-- The counters right after `__init__`. -/
def initialState : PrinterState := ⟨0, 0, []⟩

/-- How `supervised_mode_async` / `automatic_mode_async` fold one
returned `(layer_number, success, error)` tuple into the counters. -/
def foldOutcome (s : PrinterState) (o : LayerOutcome) : PrinterState :=
  if o.success then
    { s with successful_layers := s.successful_layers + 1 }
  else
    { s with failed_layers := s.failed_layers + 1,
             error_log := s.error_log ++
               ["Layer " ++ o.layerNumber ++ ": " ++ o.error.getD "None"] }

/-- How `print_layer`'s internal mutations read as a state update. -/
def applyPrintResult (s : PrinterState) (r : PrintResult) : PrinterState :=
  if r.success then
    { s with successful_layers := s.successful_layers + 1 }
  else
    { s with failed_layers := s.failed_layers + 1,
             error_log := s.error_log ++ [r.logEntry.getD ""] }

/-! ## Artifact paths (`os.path.join` with `/`) -/

/-- `layer_folder = os.path.join(self.output_folder, f"layer_{layer_number}")`. -/
def layer_folder (output_folder : String) (layer : WorkRecord) : String :=
  output_folder ++ "/layer_" ++ layer.layerNumber.getD "unknown"

/-- `layer_data_file = os.path.join(layer_folder, "layer_data.txt")`. -/
def layer_data_file (output_folder : String) (layer : WorkRecord) : String :=
  layer_folder output_folder layer ++ "/layer_data.txt"

/-- `image_path = os.path.join(layer_folder, f"layer_{layer_number}.png")`. -/
def image_path (output_folder : String) (layer : WorkRecord) : String :=
  layer_folder output_folder layer ++ "/layer_" ++ layer.layerNumber.getD "unknown" ++ ".png"

/-- The files one `print_layer` call materialized in the artifact store. -/
def rowArtifacts (output_folder : String) (layer : WorkRecord) (r : PrintResult) : List String :=
  (if r.wroteData then [layer_data_file output_folder layer] else []) ++
    (if r.wroteImage then [image_path output_folder layer] else [])

/-! ## normal_driver mode loops -/

/-- What `normal_driver.automatic_mode` does for one row: a row whose
`Error` column is a non-`"SUCCESS"` value is logged and counted failed
without `print_layer` ever being called (so no write and no fetch);
otherwise `print_layer` runs. -/
structure AutoRowOut where
  success : Bool
  logEntry : Option String
  wroteData : Bool
  attemptedWrite : Bool
  attemptedFetch : Bool
deriving DecidableEq, Repr

/-- One iteration of `normal_driver.FakePrinter.automatic_mode`'s row loop. -/
def automatic_row (layer : WorkRecord) (env : RowEnv) : AutoRowOut :=
  let layer_number := layer.layerNumber.getD "unknown"
  if layer.errorField.getD "SUCCESS" ≠ "SUCCESS" then
    { success := false,
      logEntry := some ("Layer " ++ layer_number ++ ": " ++ layer.errorField.getD "SUCCESS"),
      wroteData := false, attemptedWrite := false, attemptedFetch := false }
  else
    let p := print_layer layer env
    { success := p.success, logEntry := p.logEntry, wroteData := p.wroteData,
      attemptedWrite := true, attemptedFetch := p.attemptedFetch }

/-- Fold an `automatic_row` result into the counters (the inherent-error
branch appends to `error_log` and bumps `failed_layers`; the
`print_layer` branch mutates as `print_layer` itself does). -/
def applyAutoRow (s : PrinterState) (r : AutoRowOut) : PrinterState :=
  if r.success then
    { s with successful_layers := s.successful_layers + 1 }
  else
    { s with failed_layers := s.failed_layers + 1,
             error_log := s.error_log ++ [r.logEntry.getD ""] }

/-- `normal_driver.FakePrinter.automatic_mode`: every row in order,
no user input, no early exit. -/
def automatic_mode (rows : List (WorkRecord × RowEnv)) (s : PrinterState) : PrinterState :=
  rows.foldl (fun s re => applyAutoRow s (automatic_row re.1 re.2)) s

/-- Result of a `normal_driver` mode loop: final counters, the artifact
paths written, how many rows were fully processed by `print_layer`, and
whether the user aborted early. -/
structure ModeOut where
  ps : PrinterState
  artifacts : List String
  processed : Nat
  aborted : Bool
deriving DecidableEq, Repr

/-- `normal_driver.FakePrinter.supervised_mode`: per row, read one line
of input (`'q'` aborts); when the `Error` column flags an inherent
error, read a second line (`'e'` aborts); otherwise `print_layer` runs.
`script` is the stream of user inputs, `k` the cursor into it. -/
def supervised_mode (output_folder : String) :
    List (WorkRecord × RowEnv) → (Nat → String) → Nat → PrinterState → List String → ModeOut
  | [], _, _, s, arts => ⟨s, arts, 0, false⟩
  | (layer, env) :: rest, script, k, s, arts =>
    if normInput (script k) = "q" then
      ⟨s, arts, 0, true⟩
    else if layer.errorField.getD "SUCCESS" ≠ "SUCCESS" then
      if normInput (script (k + 1)) = "e" then
        ⟨s, arts, 0, true⟩
      else
        let p := print_layer layer env
        let out := supervised_mode output_folder rest script (k + 2)
          (applyPrintResult s p) (arts ++ rowArtifacts output_folder layer p)
        { out with processed := out.processed + 1 }
    else
      let p := print_layer layer env
      let out := supervised_mode output_folder rest script (k + 1)
        (applyPrintResult s p) (arts ++ rowArtifacts output_folder layer p)
      { out with processed := out.processed + 1 }

/-! ## multi_driver automatic mode -/

/-- `multi_driver.FakePrinter.automatic_mode_async`: gather
`print_layer_async` over all rows, then fold the results in order. -/
def automatic_mode_async (rows : List (WorkRecord × RowEnv)) (s : PrinterState) : PrinterState :=
  (rows.map fun re => print_layer_async re.1 re.2.write re.2.fetch).foldl foldOutcome s

/-! ## smart_driver prefetch scheduler -/

/-- The scheduler's live state: the row indices whose `asyncio` task is
in the `prefetched` dict, the next row index not yet launched, and the
next row index the consumer will retrieve. -/
structure SchedState where
  prefetched : List Nat
  next_index_to_prefetch : Nat
  current_index : Nat
deriving DecidableEq, Repr

/-- The `while next_index_to_prefetch < total_layers and len(prefetched) < cap`
launch loop (used with `cap = initial_prefetch` before the consumer loop
and `cap = max_prefetch` on each refill).  Launching row `i` appends `i`
to the dict's keys and to `log`, the record of every `create_task` call.
`fuel` only bounds the iteration count; `total + 1` is always enough
because `next` never passes `total`. -/
def fill (total cap : Nat) : Nat → List Nat → Nat → List Nat → List Nat × Nat × List Nat
  | 0, pf, next, log => (pf, next, log)
  | fuel + 1, pf, next, log =>
    if next < total ∧ pf.length < cap then
      fill total cap fuel (pf ++ [next]) (next + 1) (log ++ [next])
    else
      (pf, next, log)

/-- Everything `supervised_mode_async` produced: the scheduler state when
the loop ended, the counters, the outcomes delivered to the consumer in
delivery order, the scheduler state at each pacing prompt, every row
index ever launched (in launch order), the number of pacing prompts, and
whether the user quit. -/
structure LoopOut where
  final : SchedState
  ps : PrinterState
  delivered : List LayerOutcome
  trace : List SchedState
  launched : List Nat
  prompts : Nat
  aborted : Bool
deriving DecidableEq, Repr

/-- The consumer loop of `smart_driver.FakePrinter.supervised_mode_async`:
while `current_index < total_layers`, prompt (input `'q'` quits);
otherwise await the task keyed at `current_index` — its result is
`outcome current_index` regardless of which tasks finished first —
fold it into the counters, delete the key, advance, and refill up to
`max_prefetch` tasks.  When `current_index` is absent from the dict the
code only prints a notice and advances.  `fuel` bounds the iteration
count; each iteration either returns or advances `current_index`, so
`total + 1` is always enough. -/
def smartLoop (outcome : Nat → LayerOutcome) (total maxP : Nat) (script : Nat → String) :
    Nat → Nat → SchedState → PrinterState → List LayerOutcome → List SchedState →
      List Nat → Nat → LoopOut
  | 0, _, st, ps, dl, tr, log, pr => ⟨st, ps, dl, tr, log, pr, false⟩
  | fuel + 1, k, st, ps, dl, tr, log, pr =>
    if st.current_index < total then
      if normInput (script k) = "q" then
        ⟨st, ps, dl, tr ++ [st], log, pr + 1, true⟩
      else if st.current_index ∈ st.prefetched then
        let o := outcome st.current_index
        let r := fill total maxP (total + 1)
          (st.prefetched.erase st.current_index) st.next_index_to_prefetch log
        smartLoop outcome total maxP script fuel (k + 1)
          ⟨r.1, r.2.1, st.current_index + 1⟩ (foldOutcome ps o)
          (dl ++ [o]) (tr ++ [st]) r.2.2 (pr + 1)
      else
        let r := fill total maxP (total + 1)
          st.prefetched st.next_index_to_prefetch log
        smartLoop outcome total maxP script fuel (k + 1)
          ⟨r.1, r.2.1, st.current_index + 1⟩ ps dl (tr ++ [st]) r.2.2 (pr + 1)
    else
      ⟨st, ps, dl, tr, log, pr, false⟩

/-- `smart_driver.FakePrinter.supervised_mode_async`, parametrized by the
window bounds (the source fixes `maxP = max_prefetch = 10` and
`initP = initial_prefetch = 6`): initial launch of up to `initP` tasks,
then the consumer loop. -/
def supervisedRun (outcome : Nat → LayerOutcome) (total maxP initP : Nat)
    (script : Nat → String) : LoopOut :=
  let r := fill total initP (total + 1) [] 0 []
  smartLoop outcome total maxP script (total + 1) 0 ⟨r.1, r.2.1, 0⟩
    initialState [] [] r.2.2 0

/-- `supervised_mode_async` with the source's constants
`max_prefetch = 10`, `initial_prefetch = 6`. -/
def supervised_mode_async (outcome : Nat → LayerOutcome) (total : Nat)
    (script : Nat → String) : LoopOut :=
  supervisedRun outcome total 10 6 script

/-- The result the task for row `i` settles to: `fetch_layer_supervised`
on row `i` against that row's environment. -/
def rowOutcome (rows : List (WorkRecord × RowEnv)) (i : Nat) : LayerOutcome :=
  match rows.get? i with
  | some (r, e) => fetch_layer_supervised r e.write e.fetch
  | none => ⟨"unknown", true, none⟩

/-- The pacing input `s` means quit when `s.strip().lower() == 'q'`. -/
def quitInput (s : String) : Prop := normInput s = "q"

instance (s : String) : Decidable (quitInput s) := by
  unfold quitInput; infer_instance

/-- A scripted pacing source: `k` confirmations, then quit. -/
def scriptConfirm (k : Nat) : Nat → String := fun i => if i < k then "" else "q"

/-! ## run dispatch -/

/-- Result of `normal_driver.FakePrinter.run` after a successful CSV
load: either `sys.exit(1)` on an invalid mode (before any row loop and
before `generate_summary`), or the mode loop's result followed by the
summary. -/
structure NormalRunOut where
  exitCode : Option Nat
  ps : PrinterState
  artifacts : List String
  processed : Nat
  summaryGenerated : Bool
deriving DecidableEq, Repr

/-- `normal_driver.FakePrinter.run` (mode dispatch; `self.mode` was
lowercased by `__init__`). -/
def normal_run (output_folder modeArg : String) (rows : List (WorkRecord × RowEnv))
    (script : Nat → String) : NormalRunOut :=
  let mode := pyLower modeArg
  if mode = "supervised" then
    let out := supervised_mode output_folder rows script 0 initialState []
    ⟨none, out.ps, out.artifacts, out.processed, true⟩
  else if mode = "automatic" then
    ⟨none, automatic_mode rows initialState, [], rows.length, true⟩
  else
    ⟨some 1, initialState, [], 0, false⟩

/-- Result of `smart_driver.FakePrinter.run` after a successful CSV load. -/
structure SmartRunOut where
  exitCode : Option Nat
  ps : PrinterState
  summaryGenerated : Bool
deriving DecidableEq, Repr

/-- `smart_driver.FakePrinter.automatic_mode_async`: gather
`fetch_layer_supervised` over all rows, fold the results in order. -/
def smart_automatic (rows : List (WorkRecord × RowEnv)) (s : PrinterState) : PrinterState :=
  (rows.map fun re => fetch_layer_supervised re.1 re.2.write re.2.fetch).foldl foldOutcome s

/-- `smart_driver.FakePrinter.run` (mode dispatch; `self.mode` was
lowercased by `__init__`). -/
def smart_run (modeArg : String) (rows : List (WorkRecord × RowEnv))
    (script : Nat → String) : SmartRunOut :=
  let mode := pyLower modeArg
  if mode = "supervised" then
    ⟨none, (supervised_mode_async (rowOutcome rows) rows.length script).ps, true⟩
  else if mode = "automatic" then
    ⟨none, smart_automatic rows initialState, true⟩
  else
    ⟨some 1, initialState, false⟩

/-! ## Scheduler infrastructure lemmas -/

/-- The scheduler invariant: the in-flight keys are exactly the
contiguous block `[current_index, next_index_to_prefetch)`, indices stay
within `[0, total]`, the window holds at most `maxP` entries, and while
rows remain the window is non-empty. -/
def Inv (total maxP : Nat) (st : SchedState) : Prop :=
  st.prefetched =
      List.range' st.current_index (st.next_index_to_prefetch - st.current_index) ∧
    st.current_index ≤ st.next_index_to_prefetch ∧
    st.next_index_to_prefetch ≤ total ∧
    st.next_index_to_prefetch - st.current_index ≤ maxP ∧
    (st.current_index < total → st.current_index < st.next_index_to_prefetch)

lemma range'_snoc (s n : Nat) : List.range' s n ++ [s + n] = List.range' s (n + 1) := by
  have h : List.range' s (n + 1) = List.range' s n ++ [s + 1 * n] := List.range'_concat s n
  rw [h, Nat.one_mul]

/-- Characterization of the launch loop `fill`: starting from the
contiguous block `[c, next)` it launches rows `next, next+1, ...` until
the window reaches `cap` entries or the input is exhausted. -/
lemma fill_spec (total cap : Nat) :
    ∀ (fuel c next : Nat) (log : List Nat),
      c ≤ next → next ≤ total → total - next ≤ fuel →
      ∃ n, fill total cap fuel (List.range' c (next - c)) next log =
          (List.range' c (n - c), n, log ++ List.range' next (n - next)) ∧
        next ≤ n ∧ n ≤ total ∧ n - c ≤ max (next - c) cap ∧
        (n < total → cap ≤ n - c) := by
  intro fuel
  induction fuel with
  | zero =>
    intro c next log hcn hnt hfuel
    have hnext : next = total := by omega
    refine ⟨next, ?_, le_refl _, by omega, by omega, by omega⟩
    simp [fill]
  | succ fuel ih =>
    intro c next log hcn hnt hfuel
    by_cases hcond : next < total ∧ (List.range' c (next - c)).length < cap
    · have hlen : next - c < cap := by simpa using hcond.2
      have hrw : List.range' c (next - c) ++ [next] = List.range' c (next + 1 - c) := by
        have h1 : c + (next - c) = next := by omega
        have h2 := range'_snoc c (next - c)
        rw [h1] at h2
        rw [h2]
        congr 1
        omega
      obtain ⟨n, heq, h1, h2, h3, h4⟩ :=
        ih c (next + 1) (log ++ [next]) (by omega) (by omega) (by omega)
      refine ⟨n, ?_, by omega, h2, by omega, h4⟩
      rw [show fill total cap (fuel + 1) (List.range' c (next - c)) next log =
          fill total cap fuel (List.range' c (next - c) ++ [next]) (next + 1)
            (log ++ [next]) from by rw [fill, if_pos hcond]]
      rw [hrw, heq]
      have hlog : (log ++ [next]) ++ List.range' (next + 1) (n - (next + 1)) =
          log ++ List.range' next (n - next) := by
        rw [List.append_assoc]
        congr 1
        have h5 : List.range' next (n - next) = next :: List.range' (next + 1) (n - next - 1) := by
          rw [show n - next = (n - next - 1) + 1 by omega]
          exact List.range'_succ next (n - next - 1) 1
        rw [h5]
        rfl
      rw [hlog]
    · refine ⟨next, ?_, le_refl _, hnt, by omega, ?_⟩
      · rw [fill, if_neg hcond]
        simp
      · intro hlt
        rcases Classical.not_and_iff_or_not_not.mp hcond with h | h
        · omega
        · have : cap ≤ (List.range' c (next - c)).length := Nat.le_of_not_lt h
          simpa using this

/-- Effect of the refill performed after consuming `current_index`:
the window is again a contiguous block starting at `current_index + 1`,
the invariant is preserved, and the launch log grows by exactly the
newly launched contiguous block. -/
lemma fillStep (total maxP : Nat) (st : SchedState) (log : List Nat)
    (hmax : 1 ≤ maxP) (hInv : Inv total maxP st) (hc : st.current_index < total) :
    Inv total maxP
        ⟨(fill total maxP (total + 1) (st.prefetched.erase st.current_index)
            st.next_index_to_prefetch log).1,
          (fill total maxP (total + 1) (st.prefetched.erase st.current_index)
            st.next_index_to_prefetch log).2.1,
          st.current_index + 1⟩ ∧
      (fill total maxP (total + 1) (st.prefetched.erase st.current_index)
          st.next_index_to_prefetch log).2.2 =
        log ++ List.range' st.next_index_to_prefetch
          ((fill total maxP (total + 1) (st.prefetched.erase st.current_index)
              st.next_index_to_prefetch log).2.1 - st.next_index_to_prefetch) ∧
      st.next_index_to_prefetch ≤
        (fill total maxP (total + 1) (st.prefetched.erase st.current_index)
          st.next_index_to_prefetch log).2.1 := by
  obtain ⟨hpf, hcn, hnt, hwin, hprog⟩ := hInv
  have hcnx : st.current_index < st.next_index_to_prefetch := hprog hc
  have herase : st.prefetched.erase st.current_index =
      List.range' (st.current_index + 1)
        (st.next_index_to_prefetch - (st.current_index + 1)) := by
    rw [hpf, show st.next_index_to_prefetch - st.current_index =
        (st.next_index_to_prefetch - st.current_index - 1) + 1 by omega,
      List.range'_succ, List.erase_cons_head]
    congr 1
  obtain ⟨n, heq, h1, h2, h3, h4⟩ :=
    fill_spec total maxP (total + 1) (st.current_index + 1)
      st.next_index_to_prefetch log (by omega) hnt (by omega)
  rw [herase, heq]
  dsimp only [Inv]
  have hprog2 : st.current_index + 1 < total → st.current_index + 1 < n := by
    intro hlt
    rcases Nat.lt_or_ge n total with h | h
    · have := h4 h
      omega
    · omega
  exact ⟨⟨rfl, by omega, h2, by omega, hprog2⟩, rfl, h1⟩

/-- The state update one consuming iteration of the consumer loop
performs: delete `current_index` from the window, advance it, refill. -/
def consumeStep (total maxP : Nat) (st : SchedState) : SchedState :=
  let r := fill total maxP (total + 1) (st.prefetched.erase st.current_index)
    st.next_index_to_prefetch (List.range st.next_index_to_prefetch)
  ⟨r.1, r.2.1, st.current_index + 1⟩

lemma range_append_range' (a b : Nat) :
    List.range a ++ List.range' a b = List.range (a + b) := by
  rw [List.range_eq_range', List.range_eq_range']
  have h := List.range'_append 0 a b 1
  simpa [Nat.add_comm] using h

/-- `consumeStep` preserves the invariant, advances the consumer index,
and (applied to the canonical launch log) extends the log to exactly
`range` of the new `next_index_to_prefetch`. -/
lemma consumeStep_spec (total maxP : Nat) (st : SchedState)
    (hmax : 1 ≤ maxP) (hInv : Inv total maxP st) (hc : st.current_index < total) :
    Inv total maxP (consumeStep total maxP st) ∧
      (consumeStep total maxP st).current_index = st.current_index + 1 ∧
      (fill total maxP (total + 1) (st.prefetched.erase st.current_index)
          st.next_index_to_prefetch (List.range st.next_index_to_prefetch)).2.2 =
        List.range (consumeStep total maxP st).next_index_to_prefetch := by
  obtain ⟨h1, h2, h3⟩ := fillStep total maxP st (List.range st.next_index_to_prefetch)
    hmax hInv hc
  refine ⟨h1, rfl, ?_⟩
  rw [h2, range_append_range']
  congr 1
  dsimp only [consumeStep]
  omega

/-- Each folded outcome increments exactly one of the two counters. -/
lemma foldOutcome_sum (s : PrinterState) (o : LayerOutcome) :
    (foldOutcome s o).successful_layers + (foldOutcome s o).failed_layers =
      s.successful_layers + s.failed_layers + 1 := by
  unfold foldOutcome
  by_cases h : o.success <;> simp [h] <;> omega

/-- Each folded outcome appends one error-log entry iff it failed. -/
lemma foldOutcome_log (s : PrinterState) (o : LayerOutcome) :
    (foldOutcome s o).error_log.length =
      s.error_log.length + (if o.success then 0 else 1) := by
  unfold foldOutcome
  by_cases h : o.success <;> simp [h]

/-- Folding a list of outcomes adds its length to the counter sum and
one error-log entry per failed outcome. -/
lemma foldl_foldOutcome_counts (os : List LayerOutcome) :
    ∀ s : PrinterState,
      ((os.foldl foldOutcome s).successful_layers +
          (os.foldl foldOutcome s).failed_layers =
        s.successful_layers + s.failed_layers + os.length) ∧
      (os.foldl foldOutcome s).error_log.length =
        s.error_log.length + os.countP (fun o => !o.success) := by
  induction os with
  | nil => intro s; simp
  | cons o os ih =>
    intro s
    obtain ⟨h1, h2⟩ := ih (foldOutcome s o)
    rw [List.foldl_cons]
    constructor
    · rw [h1, foldOutcome_sum]
      simp
      omega
    · rw [h2, foldOutcome_log, List.countP_cons]
      by_cases h : o.success
      · simp [h]
      · simp [h]
        omega

/-- The scheduler state right after the initial launch loop (the same
for every pacing script). -/
def initState (total initP : Nat) : SchedState :=
  let r := fill total initP (total + 1) [] 0 []
  ⟨r.1, r.2.1, 0⟩

/-- The initial launch of `supervisedRun` establishes the invariant with
`current_index = 0` and the canonical launch log. -/
lemma supervisedRun_init (outcome : Nat → LayerOutcome) (total maxP initP : Nat)
    (script : Nat → String) (h1 : 1 ≤ initP) (h2 : initP ≤ maxP) :
    supervisedRun outcome total maxP initP script =
      smartLoop outcome total maxP script (total + 1) 0 (initState total initP)
        initialState [] [] (List.range (initState total initP).next_index_to_prefetch)
        0 ∧
    Inv total maxP (initState total initP) ∧
    (initState total initP).current_index = 0 := by
  obtain ⟨n, heq, hn1, hn2, hn3, hn4⟩ :=
    fill_spec total initP (total + 1) 0 0 [] (le_refl 0) (Nat.zero_le total) (by omega)
  have heq2 : fill total initP (total + 1) [] 0 [] =
      (List.range' 0 (n - 0), n, [] ++ List.range' 0 (n - 0)) := heq
  have hst : initState total initP = ⟨List.range' 0 (n - 0), n, 0⟩ := by
    unfold initState
    rw [heq2]
  rw [hst]
  refine ⟨?_, ?_, rfl⟩
  · unfold supervisedRun
    rw [heq2]
    dsimp only
    rw [List.nil_append, show List.range' 0 (n - 0) = List.range n from by
      rw [List.range_eq_range']
      congr 1]
  · dsimp only [Inv]
    refine ⟨rfl, by omega, hn2, by omega, ?_⟩
    intro hlt
    rcases Nat.lt_or_ge n total with h | h
    · have := hn4 h
      omega
    · omega

/-- Iterating `consumeStep` preserves the invariant and advances the
consumer index by one row per step. -/
lemma consumeStep_iterate (total maxP : Nat) (hmax : 1 ≤ maxP) :
    ∀ (m : Nat) (st : SchedState), Inv total maxP st → st.current_index + m ≤ total →
      Inv total maxP ((consumeStep total maxP)^[m] st) ∧
        ((consumeStep total maxP)^[m] st).current_index = st.current_index + m := by
  intro m
  induction m with
  | zero =>
    intro st hInv hm
    exact ⟨hInv, rfl⟩
  | succ m ih =>
    intro st hInv hm
    obtain ⟨hInv1, hc1, _⟩ := consumeStep_spec total maxP st hmax hInv (by omega)
    obtain ⟨hInv2, hc2⟩ := ih (consumeStep total maxP st) hInv1 (by omega)
    rw [Function.iterate_succ_apply]
    exact ⟨hInv2, by omega⟩

/-- Unfolding `smartLoop` when the consumer loop has ended. -/
lemma smartLoop_exhaust (outcome : Nat → LayerOutcome) (total maxP : Nat)
    (script : Nat → String) (fuel k : Nat) (st : SchedState) (ps : PrinterState)
    (dl : List LayerOutcome) (tr : List SchedState) (log : List Nat) (pr : Nat)
    (hc : ¬ st.current_index < total) :
    smartLoop outcome total maxP script (fuel + 1) k st ps dl tr log pr =
      ⟨st, ps, dl, tr, log, pr, false⟩ := by
  rw [smartLoop, if_neg hc]

/-- Unfolding `smartLoop` at a quit input. -/
lemma smartLoop_quit (outcome : Nat → LayerOutcome) (total maxP : Nat)
    (script : Nat → String) (fuel k : Nat) (st : SchedState) (ps : PrinterState)
    (dl : List LayerOutcome) (tr : List SchedState) (log : List Nat) (pr : Nat)
    (hc : st.current_index < total) (hq : normInput (script k) = "q") :
    smartLoop outcome total maxP script (fuel + 1) k st ps dl tr log pr =
      ⟨st, ps, dl, tr ++ [st], log, pr + 1, true⟩ := by
  rw [smartLoop, if_pos hc, if_pos hq]

/-- Running `m` consecutive confirmed (non-quit) iterations of the
consumer loop delivers the outcomes of rows
`current_index, ..., current_index + m - 1` in index order, folds
exactly those into the counters, records the entry states into the
trace, and extends the launch log canonically; the resulting scheduler
state is `m` applications of `consumeStep`. -/
lemma smartLoop_steps (outcome : Nat → LayerOutcome) (total maxP : Nat)
    (script : Nat → String) (hmax : 1 ≤ maxP) :
    ∀ (m fuel k : Nat) (st : SchedState) (ps : PrinterState) (dl : List LayerOutcome)
      (tr : List SchedState) (pr : Nat),
      Inv total maxP st → st.current_index + m ≤ total →
      (∀ i, i < m → ¬ quitInput (script (k + i))) →
      total - st.current_index < fuel →
      smartLoop outcome total maxP script fuel k st ps dl tr
          (List.range st.next_index_to_prefetch) pr =
        smartLoop outcome total maxP script (fuel - m) (k + m)
          ((consumeStep total maxP)^[m] st)
          (((List.range' st.current_index m).map outcome).foldl foldOutcome ps)
          (dl ++ (List.range' st.current_index m).map outcome)
          (tr ++ (List.range m).map fun i => (consumeStep total maxP)^[i] st)
          (List.range ((consumeStep total maxP)^[m] st).next_index_to_prefetch)
          (pr + m) := by
  intro m
  induction m with
  | zero =>
    intro fuel k st ps dl tr pr hInv hm hq hfuel
    simp
  | succ m ih =>
    intro fuel k st ps dl tr pr hInv hm hq hfuel
    have hc : st.current_index < total := by omega
    obtain ⟨f, rfl⟩ : ∃ f, fuel = f + 1 := ⟨fuel - 1, by omega⟩
    have hq0 : ¬ normInput (script k) = "q" := by
      have := hq 0 (by omega)
      rwa [Nat.add_zero] at this
    have hmem : st.current_index ∈ st.prefetched := by
      rw [hInv.1, List.mem_range'_1]
      have := hInv.2.2.2.2 hc
      omega
    obtain ⟨hInv', hci', hlog'⟩ := consumeStep_spec total maxP st hmax hInv hc
    have hunfold : smartLoop outcome total maxP script (f + 1) k st ps dl tr
        (List.range st.next_index_to_prefetch) pr =
      smartLoop outcome total maxP script f (k + 1) (consumeStep total maxP st)
        (foldOutcome ps (outcome st.current_index))
        (dl ++ [outcome st.current_index]) (tr ++ [st])
        (List.range (consumeStep total maxP st).next_index_to_prefetch) (pr + 1) := by
      rw [smartLoop, if_pos hc, if_neg hq0, if_pos hmem]
      dsimp only
      rw [hlog']
      rfl
    rw [hunfold]
    rw [ih f (k + 1) (consumeStep total maxP st) (foldOutcome ps (outcome st.current_index))
      (dl ++ [outcome st.current_index]) (tr ++ [st]) (pr + 1) hInv'
      (by omega)
      (by
        intro i hi
        have := hq (i + 1) (by omega)
        rwa [show k + (i + 1) = k + 1 + i by omega] at this)
      (by omega)]
    have hrange : List.range' st.current_index (m + 1) =
        st.current_index :: List.range' (st.current_index + 1) m :=
      List.range'_succ st.current_index m 1
    rw [show f + 1 - (m + 1) = f - m by omega,
      show k + (m + 1) = k + 1 + m by omega,
      show pr + (m + 1) = pr + 1 + m by omega,
      hci', hrange, List.range_succ_eq_map]
    simp only [List.map_cons, List.foldl_cons, List.append_assoc, List.singleton_append,
      List.map_map, Function.iterate_succ_apply, Function.iterate_zero, Function.comp_def,
      id_eq]

/-- For any pacing script, every scheduler state recorded in the trace
(and the final state) satisfies the invariant. -/
lemma smartLoop_invariants (outcome : Nat → LayerOutcome) (total maxP : Nat)
    (script : Nat → String) (hmax : 1 ≤ maxP) :
    ∀ (fuel k : Nat) (st : SchedState) (ps : PrinterState) (dl : List LayerOutcome)
      (tr : List SchedState) (log : List Nat) (pr : Nat),
      Inv total maxP st → total - st.current_index < fuel →
      ((∀ s, s ∈ (smartLoop outcome total maxP script fuel k st ps dl tr log pr).trace →
          s ∈ tr ∨ Inv total maxP s) ∧
        Inv total maxP (smartLoop outcome total maxP script fuel k st ps dl tr log pr).final) := by
  intro fuel
  induction fuel with
  | zero =>
    intro k st ps dl tr log pr hInv hfuel
    exact absurd hfuel (by omega)
  | succ f ih =>
    intro k st ps dl tr log pr hInv hfuel
    by_cases hc : st.current_index < total
    · by_cases hq : normInput (script k) = "q"
      · rw [smartLoop_quit outcome total maxP script f k st ps dl tr log pr hc hq]
        refine ⟨?_, hInv⟩
        intro s hs
        rcases List.mem_append.mp hs with h | h
        · exact Or.inl h
        · right
          rw [List.mem_singleton.mp h]
          exact hInv
      · have hmem : st.current_index ∈ st.prefetched := by
          rw [hInv.1, List.mem_range'_1]
          have := hInv.2.2.2.2 hc
          omega
        obtain ⟨hInv1, _hlog, _hmono⟩ := fillStep total maxP st log hmax hInv hc
        rw [smartLoop, if_pos hc, if_neg hq, if_pos hmem]
        dsimp only
        obtain ⟨ihmem, ihfin⟩ := ih (k + 1)
          ⟨(fill total maxP (total + 1) (st.prefetched.erase st.current_index)
              st.next_index_to_prefetch log).1,
            (fill total maxP (total + 1) (st.prefetched.erase st.current_index)
              st.next_index_to_prefetch log).2.1,
            st.current_index + 1⟩
          (foldOutcome ps (outcome st.current_index)) (dl ++ [outcome st.current_index])
          (tr ++ [st])
          (fill total maxP (total + 1) (st.prefetched.erase st.current_index)
            st.next_index_to_prefetch log).2.2
          (pr + 1) hInv1 (by dsimp only; omega)
        refine ⟨?_, ihfin⟩
        intro s hs
        rcases ihmem s hs with h | h
        · rcases List.mem_append.mp h with h2 | h2
          · exact Or.inl h2
          · right
            rw [List.mem_singleton.mp h2]
            exact hInv
        · exact Or.inr h
    · rw [smartLoop_exhaust outcome total maxP script f k st ps dl tr log pr hc]
      exact ⟨fun s hs => Or.inl hs, hInv⟩

/-- For any pacing script, the counter sum grows by exactly the number
of consumed rows, the consumer index never exceeds `total`, and a run
that was not aborted consumed every row. -/
lemma smartLoop_counts (outcome : Nat → LayerOutcome) (total maxP : Nat)
    (script : Nat → String) (hmax : 1 ≤ maxP) :
    ∀ (fuel k : Nat) (st : SchedState) (ps : PrinterState) (dl : List LayerOutcome)
      (tr : List SchedState) (log : List Nat) (pr : Nat),
      Inv total maxP st → total - st.current_index < fuel →
      ((smartLoop outcome total maxP script fuel k st ps dl tr log pr).ps.successful_layers +
          (smartLoop outcome total maxP script fuel k st ps dl tr log pr).ps.failed_layers =
        ps.successful_layers + ps.failed_layers +
          ((smartLoop outcome total maxP script fuel k st ps dl tr log pr).final.current_index -
            st.current_index) ∧
        st.current_index ≤
          (smartLoop outcome total maxP script fuel k st ps dl tr log pr).final.current_index ∧
        (smartLoop outcome total maxP script fuel k st ps dl tr log pr).final.current_index ≤
          total ∧
        ((smartLoop outcome total maxP script fuel k st ps dl tr log pr).aborted = false →
          (smartLoop outcome total maxP script fuel k st ps dl tr log pr).final.current_index =
            total)) := by
  intro fuel
  induction fuel with
  | zero =>
    intro k st ps dl tr log pr hInv hfuel
    exact absurd hfuel (by omega)
  | succ f ih =>
    intro k st ps dl tr log pr hInv hfuel
    have hcn : st.current_index ≤ st.next_index_to_prefetch := hInv.2.1
    have hnt : st.next_index_to_prefetch ≤ total := hInv.2.2.1
    by_cases hc : st.current_index < total
    · by_cases hq : normInput (script k) = "q"
      · rw [smartLoop_quit outcome total maxP script f k st ps dl tr log pr hc hq]
        dsimp only
        refine ⟨by omega, le_refl _, by omega, ?_⟩
        intro h
        exact absurd h (by simp)
      · have hmem : st.current_index ∈ st.prefetched := by
          rw [hInv.1, List.mem_range'_1]
          have := hInv.2.2.2.2 hc
          omega
        obtain ⟨hInv1, _hlog, _hmono⟩ := fillStep total maxP st log hmax hInv hc
        rw [smartLoop, if_pos hc, if_neg hq, if_pos hmem]
        dsimp only
        obtain ⟨ih1, ih2, ih3, ih4⟩ := ih (k + 1)
          ⟨(fill total maxP (total + 1) (st.prefetched.erase st.current_index)
              st.next_index_to_prefetch log).1,
            (fill total maxP (total + 1) (st.prefetched.erase st.current_index)
              st.next_index_to_prefetch log).2.1,
            st.current_index + 1⟩
          (foldOutcome ps (outcome st.current_index)) (dl ++ [outcome st.current_index])
          (tr ++ [st])
          (fill total maxP (total + 1) (st.prefetched.erase st.current_index)
            st.next_index_to_prefetch log).2.2
          (pr + 1) hInv1 (by dsimp only; omega)
        dsimp only at ih1 ih2 ih3 ih4
        have hsum := foldOutcome_sum ps (outcome st.current_index)
        refine ⟨by omega, by omega, ih3, ?_⟩
        intro h
        exact ih4 h
    · rw [smartLoop_exhaust outcome total maxP script f k st ps dl tr log pr hc]
      dsimp only
      exact ⟨by omega, le_refl _, by omega, fun _ => by omega⟩

/-! ## String helper lemmas -/

lemma str_append_left_cancel {a b c : String} (h : a ++ b = a ++ c) : b = c := by
  have h2 := congrArg String.data h
  simp only [String.data_append] at h2
  exact String.ext (List.append_cancel_left h2)

lemma writeMsg_ne_inherentMsg (e v : String) :
    "Error writing layer data: " ++ e ≠ "Inherent CSV error: " ++ v := by
  intro h
  have h2 := congrArg (fun s => s.data.head?) h
  simp only [String.data_append] at h2
  simp at h2

lemma fetchMsg_ne_inherentMsg (e v : String) :
    "Error downloading image: " ++ e ≠ "Inherent CSV error: " ++ v := by
  intro h
  have h2 := congrArg (fun s => s.data.head?) h
  simp only [String.data_append] at h2
  simp at h2

/-! ## Claims -/

/-- C9: In supervised prefetching mode with `totalRows = 0`, the
consumer loop ends immediately: no pacing prompt is issued, no
operation is ever launched, nothing is delivered, nothing is folded
into the counters, and the loop ends by exhaustion, not cancellation. -/
theorem claim_c9 (outcome : Nat → LayerOutcome) (script : Nat → String) :
    (supervised_mode_async outcome 0 script).prompts = 0 ∧
    (supervised_mode_async outcome 0 script).launched = [] ∧
    (supervised_mode_async outcome 0 script).delivered = [] ∧
    (supervised_mode_async outcome 0 script).ps = initialState ∧
    (supervised_mode_async outcome 0 script).aborted = false :=
  ⟨rfl, rfl, rfl, rfl, rfl⟩

/-- C10: mode selection in `smart_driver.run` is case-insensitive: any
mode string whose (Python) lowercasing is `"supervised"` or
`"automatic"` runs the corresponding mode and does not take the
invalid-mode exit, because `__init__` lowercases the mode once and
`run` compares the lowercased value. -/
theorem claim_c10 (modeArg : String) (rows : List (WorkRecord × RowEnv))
    (script : Nat → String) :
    (pyLower modeArg = "supervised" →
      smart_run modeArg rows script =
        ⟨none, (supervised_mode_async (rowOutcome rows) rows.length script).ps, true⟩) ∧
    (pyLower modeArg = "automatic" →
      smart_run modeArg rows script = ⟨none, smart_automatic rows initialState, true⟩) := by
  constructor
  · intro h
    unfold smart_run
    rw [if_pos h]
  · intro h
    unfold smart_run
    rw [if_neg (by rw [h]; decide), if_pos h]

/-- C10 witness: `"Supervised"` and `"AUTOMATIC"` both dispatch to a
mode loop with no exit code and a generated summary. -/
theorem claim_c10_witness :
    smart_run "Supervised" [] (fun _ => "") =
      ⟨none, (supervised_mode_async (rowOutcome ([] : List (WorkRecord × RowEnv)))
        (List.length ([] : List (WorkRecord × RowEnv))) (fun _ => "")).ps, true⟩ ∧
    smart_run "AUTOMATIC" [] (fun _ => "") =
      ⟨none, smart_automatic [] initialState, true⟩ :=
  ⟨(claim_c10 "Supervised" [] (fun _ => "")).1 (by decide),
    (claim_c10 "AUTOMATIC" [] (fun _ => "")).2 (by decide)⟩

/-- C8 counterexample: the claim quantifies over every mode string
outside `{supervised, automatic}`, but `run` lowercases the mode first,
so the invocation with mode `"AUTOMATIC"` — a string outside that set —
does not exit: it runs automatic mode and generates a summary. -/
theorem claim_c8_counterexample :
    ¬ ("AUTOMATIC" = "supervised" ∨ "AUTOMATIC" = "automatic") ∧
    (normal_run "out" "AUTOMATIC" [] (fun _ => "")).exitCode = none ∧
    (normal_run "out" "AUTOMATIC" [] (fun _ => "")).summaryGenerated = true := by
  refine ⟨by decide, by decide, by decide⟩

/-- C8 (amended): for every invocation of `normal_driver.run` with a
mode whose lowercasing is outside `{supervised, automatic}`, the program
exits with status 1 before any processing and before producing any
output: no row is processed, the counters are untouched, no per-layer
artifact is written, and no summary is generated. -/
theorem claim_c8_amended (output_folder modeArg : String)
    (rows : List (WorkRecord × RowEnv)) (script : Nat → String)
    (h1 : pyLower modeArg ≠ "supervised") (h2 : pyLower modeArg ≠ "automatic") :
    normal_run output_folder modeArg rows script =
      ⟨some 1, initialState, [], 0, false⟩ := by
  unfold normal_run
  rw [if_neg h1, if_neg h2]

/-- C8 witness: mode `"turbo"` exits with status 1 having done nothing. -/
theorem claim_c8_amended_witness :
    normal_run "out" "turbo" [(⟨some "1", none, none⟩, ⟨.ok, .ok⟩)] (fun _ => "") =
      ⟨some 1, initialState, [], 0, false⟩ :=
  claim_c8_amended "out" "turbo" [(⟨some "1", none, none⟩, ⟨.ok, .ok⟩)] (fun _ => "")
    (by decide) (by decide)

/-- C7 counterexample: two distinct rows sharing the `"Layer Number"`
value `"1"` are persisted to the identical data-file and image-file
paths, so the artifact store is not keyed uniquely per record. -/
theorem claim_c7_counterexample :
    (⟨some "1", some "u", some "SUCCESS"⟩ : WorkRecord) ≠
        ⟨some "1", none, some "Nozzle Jam"⟩ ∧
      layer_data_file "out" ⟨some "1", some "u", some "SUCCESS"⟩ =
        layer_data_file "out" ⟨some "1", none, some "Nozzle Jam"⟩ ∧
      image_path "out" ⟨some "1", some "u", some "SUCCESS"⟩ =
        image_path "out" ⟨some "1", none, some "Nozzle Jam"⟩ :=
  ⟨by decide, rfl, rfl⟩

/-- C7 (amended): artifact paths are keyed by the row's resolved
`"Layer Number"` (with `"unknown"` for a missing value), not by the row
itself: two rows whose resolved layer numbers differ get distinct
data-file paths and distinct image-file paths, while rows sharing a
resolved layer number collide on the same paths. -/
theorem claim_c7_amended (folder : String) (r₁ r₂ : WorkRecord)
    (h : r₁.layerNumber.getD "unknown" ≠ r₂.layerNumber.getD "unknown") :
    layer_data_file folder r₁ ≠ layer_data_file folder r₂ ∧
      image_path folder r₁ ≠ image_path folder r₂ := by
  constructor
  · intro heq
    apply h
    unfold layer_data_file layer_folder at heq
    have h2 := congrArg String.data heq
    simp only [String.data_append] at h2
    simp [List.append_assoc] at h2
    exact String.ext h2
  · intro heq
    apply h
    unfold image_path layer_folder at heq
    have h2 := congrArg String.data heq
    simp only [String.data_append] at h2
    simp [List.append_assoc] at h2
    have hlen := congrArg List.length h2
    simp only [List.length_append, List.length_cons] at hlen
    exact String.ext (List.append_inj h2 (by omega)).1

/-- C7 witness: rows numbered `"1"` and `"2"` get distinct paths. -/
theorem claim_c7_amended_witness :
    layer_data_file "out" ⟨some "1", none, none⟩ ≠
        layer_data_file "out" ⟨some "2", none, none⟩ ∧
      image_path "out" ⟨some "1", none, none⟩ ≠
        image_path "out" ⟨some "2", none, none⟩ :=
  claim_c7_amended "out" ⟨some "1", none, none⟩ ⟨some "2", none, none⟩ (by decide)

/-- C2 counterexample: the claim fails for the sequential driver's
supervised mode.  The row with inherent error `"Nozzle Jam"`, an image
URL and both I/O steps succeeding is processed by `print_layer` (after
the user ignores the error prompt) and is counted successful with an
empty error log — not a `success=false` outcome carrying the inherent
error's text. -/
theorem claim_c2_counterexample :
    (⟨some "2", some "img", some "Nozzle Jam"⟩ : WorkRecord).errorField.getD "SUCCESS" ≠
        "SUCCESS" ∧
      (print_layer ⟨some "2", some "img", some "Nozzle Jam"⟩ ⟨.ok, .ok⟩).success = true ∧
      (supervised_mode "out" [(⟨some "2", some "img", some "Nozzle Jam"⟩, ⟨.ok, .ok⟩)]
          (fun k => if k = 0 then "" else "i") 0 initialState []).ps =
        ⟨1, 0, []⟩ :=
  ⟨by decide, by decide, by decide⟩

/-- C2 (amended): the precedence write error > fetch error > inherent
error > success holds for the asynchronous processors
(`fetch_layer_supervised` and `print_layer_async`); the sequential
`print_layer` obeys write error > fetch error > success but never
consults the inherent-error field — its check is performed by the
enclosing mode loop before `print_layer` is invoked, so a record
reaching `print_layer` with successful I/O is counted successful even
when its inherent-error field is present. -/
theorem claim_c2_amended (layer : WorkRecord) (fres : IOResult) (e : String) :
    (fetch_layer_supervised layer (.err e) fres =
      ⟨layer.layerNumber.getD "unknown", false,
        some ("Error writing layer data: " ++ e)⟩) ∧
    (print_layer_async layer (.err e) fres =
      ⟨layer.layerNumber.getD "unknown", false,
        some ("Error writing layer data: " ++ e)⟩) ∧
    (print_layer layer ⟨.err e, fres⟩ =
      ⟨false, some ("Layer " ++ layer.layerNumber.getD "unknown" ++
        ": Error writing data: " ++ e), false, false, false⟩) ∧
    (layer.imageUrl.getD "" ≠ "" →
      fetch_layer_supervised layer .ok (.err e) =
        ⟨layer.layerNumber.getD "unknown", false,
          some ("Error downloading image: " ++ e)⟩ ∧
      print_layer_async layer .ok (.err e) =
        ⟨layer.layerNumber.getD "unknown", false,
          some ("Error downloading image: " ++ e)⟩ ∧
      print_layer layer ⟨.ok, .err e⟩ =
        ⟨false, some ("Layer " ++ layer.layerNumber.getD "unknown" ++ ": " ++ e),
          true, true, false⟩) ∧
    (layer.errorField.getD "SUCCESS" ≠ "SUCCESS" →
      fetch_layer_supervised layer .ok .ok =
        ⟨layer.layerNumber.getD "unknown", false,
          some ("Inherent CSV error: " ++ layer.errorField.getD "SUCCESS")⟩ ∧
      print_layer_async layer .ok .ok =
        ⟨layer.layerNumber.getD "unknown", false,
          some ("Inherent CSV error: " ++ layer.errorField.getD "SUCCESS")⟩) ∧
    (layer.errorField.getD "SUCCESS" = "SUCCESS" →
      fetch_layer_supervised layer .ok .ok =
        ⟨layer.layerNumber.getD "unknown", true, none⟩ ∧
      print_layer_async layer .ok .ok =
        ⟨layer.layerNumber.getD "unknown", true, none⟩) ∧
    (∀ v : Option String, print_layer layer ⟨.ok, fres⟩ =
      print_layer ⟨layer.layerNumber, layer.imageUrl, v⟩ ⟨.ok, fres⟩) := by
  refine ⟨rfl, rfl, rfl, ?_, ?_, ?_, fun v => rfl⟩
  · intro hu
    refine ⟨?_, ?_, ?_⟩
    · simp [fetch_layer_supervised, hu]
    · simp [print_layer_async, hu]
    · simp [print_layer, hu]
  · intro hi
    by_cases hu : layer.imageUrl.getD "" ≠ ""
    · exact ⟨by simp [fetch_layer_supervised, hu, hi],
        by simp [print_layer_async, hu, hi]⟩
    · exact ⟨by simp [fetch_layer_supervised, hu, hi],
        by simp [print_layer_async, hu, hi]⟩
  · intro hi
    by_cases hu : layer.imageUrl.getD "" ≠ ""
    · exact ⟨by simp [fetch_layer_supervised, hu, hi],
        by simp [print_layer_async, hu, hi]⟩
    · exact ⟨by simp [fetch_layer_supervised, hu, hi],
        by simp [print_layer_async, hu, hi]⟩

/-- C2 witness: the amended precedence evaluated on a concrete record
carrying both an image URL and the inherent error `"Nozzle Jam"`. -/
theorem claim_c2_amended_witness :
    fetch_layer_supervised ⟨some "2", some "img", some "Nozzle Jam"⟩ .ok (.err "boom") =
      ⟨"2", false, some ("Error downloading image: " ++ "boom")⟩ ∧
    fetch_layer_supervised ⟨some "2", some "img", some "Nozzle Jam"⟩ .ok .ok =
      ⟨"2", false, some ("Inherent CSV error: " ++ "Nozzle Jam")⟩ :=
  ⟨((claim_c2_amended ⟨some "2", some "img", some "Nozzle Jam"⟩ (.err "boom")
      "boom").2.2.2.1 (by decide)).1,
    ((claim_c2_amended ⟨some "2", some "img", some "Nozzle Jam"⟩ .ok
      "boom").2.2.2.2.1 (by decide)).1⟩

/-- C6 counterexample: in `normal_driver`'s automatic mode a row whose
inherent-error field is `"X"` is failed with the original message, but
`print_layer` is never called for it: its data is not persisted and no
fetch is attempted, contradicting the claim that an inherent-data error
surfaces only after successful I/O. -/
theorem claim_c6_counterexample :
    automatic_row ⟨some "7", some "u", some "X"⟩ ⟨.ok, .ok⟩ =
        ⟨false, some "Layer 7: X", false, false, false⟩ ∧
      automatic_mode [(⟨some "7", some "u", some "X"⟩, ⟨.ok, .ok⟩)] initialState =
        ⟨0, 1, ["Layer 7: X"]⟩ :=
  ⟨by decide, by decide⟩

/-- C6 (amended): for the asynchronous processors, an inherent-data
error outcome arises only when the data write succeeded and, when an
image URL is present, the fetch succeeded too, and its message carries
the original inherent-error value; in `normal_driver`'s automatic mode,
however, an inherent-error row is failed and logged with the original
value before any I/O is attempted (no data write, no fetch). -/
theorem claim_c6_amended (layer : WorkRecord) (wres fres : IOResult) (v : String)
    (env : RowEnv) :
    ((fetch_layer_supervised layer wres fres).error =
        some ("Inherent CSV error: " ++ v) →
      wres = .ok ∧ (layer.imageUrl.getD "" ≠ "" → fres = .ok) ∧
        v = layer.errorField.getD "SUCCESS") ∧
    ((print_layer_async layer wres fres).error =
        some ("Inherent CSV error: " ++ v) →
      wres = .ok ∧ (layer.imageUrl.getD "" ≠ "" → fres = .ok) ∧
        v = layer.errorField.getD "SUCCESS") ∧
    (layer.errorField.getD "SUCCESS" ≠ "SUCCESS" →
      automatic_row layer env =
        ⟨false, some ("Layer " ++ layer.layerNumber.getD "unknown" ++ ": " ++
          layer.errorField.getD "SUCCESS"), false, false, false⟩) := by
  refine ⟨?_, ?_, ?_⟩
  · intro h
    match hw : wres with
    | .err e =>
      simp only [fetch_layer_supervised, Option.some.injEq] at h
      exact absurd h (writeMsg_ne_inherentMsg e v)
    | .ok =>
      by_cases hu : layer.imageUrl.getD "" ≠ ""
      · match hf : fres with
        | .err e =>
          simp only [fetch_layer_supervised, if_pos hu, Option.some.injEq] at h
          exact absurd h (fetchMsg_ne_inherentMsg e v)
        | .ok =>
          by_cases hi : layer.errorField.getD "SUCCESS" ≠ "SUCCESS"
          · simp only [fetch_layer_supervised, if_pos hu, if_pos hi,
              Option.some.injEq] at h
            exact ⟨rfl, fun _ => rfl, (str_append_left_cancel h).symm⟩
          · simp [fetch_layer_supervised, hu, hi] at h
      · by_cases hi : layer.errorField.getD "SUCCESS" ≠ "SUCCESS"
        · simp only [fetch_layer_supervised, if_neg hu, if_pos hi,
            Option.some.injEq] at h
          exact ⟨rfl, fun h2 => absurd h2 hu, (str_append_left_cancel h).symm⟩
        · simp [fetch_layer_supervised, hu, hi] at h
  · intro h
    match hw : wres with
    | .err e =>
      simp only [print_layer_async, Option.some.injEq] at h
      exact absurd h (writeMsg_ne_inherentMsg e v)
    | .ok =>
      by_cases hu : layer.imageUrl.getD "" ≠ ""
      · match hf : fres with
        | .err e =>
          simp only [print_layer_async, if_pos hu, Option.some.injEq] at h
          exact absurd h (fetchMsg_ne_inherentMsg e v)
        | .ok =>
          by_cases hi : layer.errorField.getD "SUCCESS" ≠ "SUCCESS"
          · simp only [print_layer_async, if_pos hu, if_pos hi,
              Option.some.injEq] at h
            exact ⟨rfl, fun _ => rfl, (str_append_left_cancel h).symm⟩
          · simp [print_layer_async, hu, hi] at h
      · by_cases hi : layer.errorField.getD "SUCCESS" ≠ "SUCCESS"
        · simp only [print_layer_async, if_neg hu, if_pos hi,
            Option.some.injEq] at h
          exact ⟨rfl, fun h2 => absurd h2 hu, (str_append_left_cancel h).symm⟩
        · simp [print_layer_async, hu, hi] at h
  · intro hi
    simp [automatic_row, hi]

/-- C6 witness: the inherent-outcome characterization applied to a
concrete record, and the no-I/O inherent failure of automatic mode. -/
theorem claim_c6_amended_witness :
    (IOResult.ok = IOResult.ok ∧
        ((⟨some "2", some "img", some "NJ"⟩ : WorkRecord).imageUrl.getD "" ≠ "" →
          IOResult.ok = IOResult.ok) ∧
        "NJ" = (⟨some "2", some "img", some "NJ"⟩ : WorkRecord).errorField.getD
          "SUCCESS") ∧
      automatic_row ⟨some "3", some "u", some "X"⟩ ⟨.ok, .ok⟩ =
        ⟨false, some ("Layer " ++ "3" ++ ": " ++ "X"), false, false, false⟩ :=
  ⟨(claim_c6_amended ⟨some "2", some "img", some "NJ"⟩ .ok .ok "NJ" ⟨.ok, .ok⟩).1
      (by decide),
    (claim_c6_amended ⟨some "3", some "u", some "X"⟩ .ok .ok "X" ⟨.ok, .ok⟩).2.2
      (by decide)⟩

/-- C1: in supervised prefetching mode, for every input and every run in
which the consumer confirms `k` times without quitting (and then either
the input is exhausted or the consumer quits), the sequence of outcomes
delivered to the consumer is exactly the outcomes of rows
`0, 1, ..., k-1` in row-index order — each row's outcome delivered
exactly once — and the launch log has no duplicates, i.e. each row was
scheduled at most once.  Completion order of the underlying operations
does not enter: the loop awaits the task keyed at `current_index`, whose
result is that row's outcome. -/
theorem claim_c1 (rows : List (WorkRecord × RowEnv)) (script : Nat → String) (k : Nat)
    (hk : k ≤ rows.length)
    (hconfirm : ∀ i, i < k → ¬ quitInput (script i))
    (hstop : k = rows.length ∨ quitInput (script k)) :
    (supervised_mode_async (rowOutcome rows) rows.length script).delivered =
      (List.range k).map (rowOutcome rows) ∧
    (supervised_mode_async (rowOutcome rows) rows.length script).launched.Nodup := by
  obtain ⟨hrun, hInv₀, hc₀⟩ :=
    supervisedRun_init (rowOutcome rows) rows.length 10 6 script (by omega) (by omega)
  have hsteps := smartLoop_steps (rowOutcome rows) rows.length 10 script (by omega)
    k (rows.length + 1) 0 (initState rows.length 6) initialState [] [] 0 hInv₀
    (by omega)
    (by intro i hi; simpa using hconfirm i hi)
    (by omega)
  unfold supervised_mode_async
  rw [hrun, hsteps]
  obtain ⟨hInvK, hcK⟩ :=
    consumeStep_iterate rows.length 10 (by omega) k (initState rows.length 6) hInv₀
      (by omega)
  rw [show rows.length + 1 - k = (rows.length - k) + 1 by omega]
  rcases Nat.eq_or_lt_of_le hk with heq | hlt
  · have hnc : ¬ ((consumeStep rows.length 10)^[k]
        (initState rows.length 6)).current_index < rows.length := by omega
    rw [smartLoop_exhaust _ _ _ _ _ _ _ _ _ _ _ _ hnc]
    constructor
    · dsimp only
      rw [List.nil_append, hc₀, List.range_eq_range']
    · dsimp only
      exact List.nodup_range _
  · have hck : ((consumeStep rows.length 10)^[k]
        (initState rows.length 6)).current_index < rows.length := by omega
    have hq : normInput (script (0 + k)) = "q" := by
      rcases hstop with heq | hq2
      · omega
      · simpa using hq2
    rw [smartLoop_quit _ _ _ _ _ _ _ _ _ _ _ _ hck hq]
    constructor
    · dsimp only
      rw [List.nil_append, hc₀, List.range_eq_range']
    · dsimp only
      exact List.nodup_range _

/-- C1 witness: three rows, two confirmations, then quit. -/
theorem claim_c1_witness :
    (supervised_mode_async
        (rowOutcome [(⟨some "0", none, none⟩, ⟨.ok, .ok⟩),
          (⟨some "1", none, some "X"⟩, ⟨.ok, .ok⟩),
          (⟨some "2", none, none⟩, ⟨.ok, .ok⟩)])
        3 (scriptConfirm 2)).delivered =
      (List.range 2).map (rowOutcome [(⟨some "0", none, none⟩, ⟨.ok, .ok⟩),
        (⟨some "1", none, some "X"⟩, ⟨.ok, .ok⟩),
        (⟨some "2", none, none⟩, ⟨.ok, .ok⟩)]) ∧
    (supervised_mode_async
        (rowOutcome [(⟨some "0", none, none⟩, ⟨.ok, .ok⟩),
          (⟨some "1", none, some "X"⟩, ⟨.ok, .ok⟩),
          (⟨some "2", none, none⟩, ⟨.ok, .ok⟩)])
        3 (scriptConfirm 2)).launched.Nodup :=
  claim_c1 [(⟨some "0", none, none⟩, ⟨.ok, .ok⟩),
      (⟨some "1", none, some "X"⟩, ⟨.ok, .ok⟩),
      (⟨some "2", none, none⟩, ⟨.ok, .ok⟩)] (scriptConfirm 2) 2
    (by decide)
    (by
      intro i hi
      interval_cases i <;> decide)
    (Or.inr (by decide))

/-- C3: if the consumer cancels (a quit input) after consuming `k` of
`totalRows` rows, exactly `k` outcomes have been folded into the run
counters (`successfulLayers + failedLayers = k`, one `errorLog` entry
per failed one), the run reports cancellation, and nothing mutates the
counters afterwards: any pacing script agreeing with this one up to the
quit produces the identical output, no matter how many operations were
still in flight and what the rest of the script holds. -/
theorem claim_c3 (outcome : Nat → LayerOutcome) (total k : Nat)
    (script scriptB : Nat → String)
    (hk : k < total)
    (hconfirm : ∀ i, i < k → ¬ quitInput (script i))
    (hquit : quitInput (script k))
    (hagree : ∀ j, j ≤ k → scriptB j = script j) :
    (supervised_mode_async outcome total script).ps.successful_layers +
        (supervised_mode_async outcome total script).ps.failed_layers = k ∧
      (supervised_mode_async outcome total script).ps.error_log.length =
        ((List.range k).map outcome).countP (fun o => !o.success) ∧
      (supervised_mode_async outcome total script).aborted = true ∧
      supervised_mode_async outcome total scriptB =
        supervised_mode_async outcome total script := by
  obtain ⟨hrun, hInv₀, hc₀⟩ :=
    supervisedRun_init outcome total 10 6 script (by omega) (by omega)
  obtain ⟨hrunB, _, _⟩ :=
    supervisedRun_init outcome total 10 6 scriptB (by omega) (by omega)
  obtain ⟨hInvK, hcK⟩ :=
    consumeStep_iterate total 10 (by omega) k (initState total 6) hInv₀ (by omega)
  have hck : ((consumeStep total 10)^[k] (initState total 6)).current_index <
      total := by omega
  have hsteps := smartLoop_steps outcome total 10 script (by omega)
    k (total + 1) 0 (initState total 6) initialState [] [] 0 hInv₀ (by omega)
    (by intro i hi; simpa using hconfirm i hi) (by omega)
  have hstepsB := smartLoop_steps outcome total 10 scriptB (by omega)
    k (total + 1) 0 (initState total 6) initialState [] [] 0 hInv₀ (by omega)
    (by
      intro i hi
      rw [show (0 : Nat) + i = i by omega, hagree i (by omega)]
      exact hconfirm i hi)
    (by omega)
  have hq : normInput (script (0 + k)) = "q" := by simpa using hquit
  have hqB : normInput (scriptB (0 + k)) = "q" := by
    rw [show (0 : Nat) + k = k by omega, hagree k (le_refl k)]
    exact hquit
  have hfuel : total + 1 - k = (total - k) + 1 := by omega
  unfold supervised_mode_async
  rw [hrun, hsteps, hfuel, smartLoop_quit _ _ _ _ _ _ _ _ _ _ _ _ hck hq]
  refine ⟨?_, ?_, rfl, ?_⟩
  · dsimp only
    obtain ⟨h1, _⟩ := foldl_foldOutcome_counts
      ((List.range' (initState total 6).current_index k).map outcome) initialState
    rw [h1]
    simp [initialState]
  · dsimp only
    obtain ⟨_, h2⟩ := foldl_foldOutcome_counts
      ((List.range' (initState total 6).current_index k).map outcome) initialState
    rw [h2, hc₀, List.range_eq_range']
    simp [initialState]
  · rw [hrunB, hstepsB, hfuel, smartLoop_quit _ _ _ _ _ _ _ _ _ _ _ _ hck hqB]

/-- C3 witness: five rows, cancellation after two confirmations; a
script that differs beyond the quit point produces the identical run. -/
theorem claim_c3_witness :
    (supervised_mode_async
        (fun i => if i % 2 = 0 then ⟨"n", true, none⟩ else ⟨"n", false, some "boom"⟩)
        5 (scriptConfirm 2)).ps.successful_layers +
      (supervised_mode_async
        (fun i => if i % 2 = 0 then ⟨"n", true, none⟩ else ⟨"n", false, some "boom"⟩)
        5 (scriptConfirm 2)).ps.failed_layers = 2 ∧
    (supervised_mode_async
        (fun i => if i % 2 = 0 then ⟨"n", true, none⟩ else ⟨"n", false, some "boom"⟩)
        5 (scriptConfirm 2)).ps.error_log.length =
      ((List.range 2).map
        (fun i => if i % 2 = 0 then ⟨"n", true, none⟩
          else (⟨"n", false, some "boom"⟩ : LayerOutcome))).countP
            (fun o => !o.success) ∧
    (supervised_mode_async
        (fun i => if i % 2 = 0 then ⟨"n", true, none⟩ else ⟨"n", false, some "boom"⟩)
        5 (scriptConfirm 2)).aborted = true ∧
    supervised_mode_async
        (fun i => if i % 2 = 0 then ⟨"n", true, none⟩ else ⟨"n", false, some "boom"⟩)
        5 (fun j => if j ≤ 2 then scriptConfirm 2 j else "ignored") =
      supervised_mode_async
        (fun i => if i % 2 = 0 then ⟨"n", true, none⟩ else ⟨"n", false, some "boom"⟩)
        5 (scriptConfirm 2) :=
  claim_c3 (fun i => if i % 2 = 0 then ⟨"n", true, none⟩ else ⟨"n", false, some "boom"⟩)
    5 2 (scriptConfirm 2) (fun j => if j ≤ 2 then scriptConfirm 2 j else "ignored")
    (by decide)
    (by
      intro i hi
      interval_cases i <;> decide)
    (by decide)
    (by
      intro j hj
      show (if j ≤ 2 then scriptConfirm 2 j else "ignored") = scriptConfirm 2 j
      rw [if_pos hj])

/-- C4: in supervised prefetching mode, for every `maxWindow ≥
initialFill ≥ 1` and every input (and every pacing script), the
scheduler state at each pacing prompt and when the loop ends satisfies:
`consumerIndex ≤ nextToSchedule ≤ totalRows`, the in-flight map holds at
most `maxWindow` entries (so the number of concurrently in-flight
operations never exceeds `maxWindow`), every in-flight key lies in
`[consumerIndex, nextToSchedule)`, and whenever rows remain
(`consumerIndex < totalRows`, i.e. the consumer is about to retrieve
`consumerIndex`) that index is present in the in-flight map. -/
theorem claim_c4 (outcome : Nat → LayerOutcome) (total maxP initP : Nat)
    (script : Nat → String) (h1 : 1 ≤ initP) (h2 : initP ≤ maxP) (s : SchedState)
    (hs : s ∈ (supervisedRun outcome total maxP initP script).trace ∨
      s = (supervisedRun outcome total maxP initP script).final) :
    s.current_index ≤ s.next_index_to_prefetch ∧
      s.next_index_to_prefetch ≤ total ∧
      s.prefetched.length ≤ maxP ∧
      (∀ x ∈ s.prefetched, s.current_index ≤ x ∧ x < s.next_index_to_prefetch) ∧
      (s.current_index < total → s.current_index ∈ s.prefetched) := by
  obtain ⟨hrun, hInv₀, hc₀⟩ :=
    supervisedRun_init outcome total maxP initP script h1 (by omega)
  rw [hrun] at hs
  obtain ⟨hmem, hfin⟩ := smartLoop_invariants outcome total maxP script (by omega)
    (total + 1) 0 (initState total initP) initialState [] []
    (List.range (initState total initP).next_index_to_prefetch) 0 hInv₀ (by omega)
  have hInvS : Inv total maxP s := by
    rcases hs with h | h
    · rcases hmem s h with h2 | h2
      · exact absurd h2 (List.not_mem_nil s)
      · exact h2
    · rw [h]
      exact hfin
  obtain ⟨hpf, hcn, hnt, hwin, hprog⟩ := hInvS
  refine ⟨hcn, hnt, ?_, ?_, ?_⟩
  · rw [hpf]
    simp
    omega
  · intro x hx
    rw [hpf, List.mem_range'_1] at hx
    omega
  · intro hc
    rw [hpf, List.mem_range'_1]
    have := hprog hc
    omega

/-- C4 witness: a concrete run with `maxWindow = 2`, `initialFill = 1`,
three rows, all-confirm pacing; the invariant at the first recorded
prompt state. -/
theorem claim_c4_witness :
    ((⟨[0], 1, 0⟩ : SchedState) ∈
        (supervisedRun (fun i => ⟨toString i, true, none⟩) 3 2 1
          (fun _ => "")).trace ∨
      (⟨[0], 1, 0⟩ : SchedState) =
        (supervisedRun (fun i => ⟨toString i, true, none⟩) 3 2 1
          (fun _ => "")).final) ∧
    ((⟨[0], 1, 0⟩ : SchedState).current_index ≤
        (⟨[0], 1, 0⟩ : SchedState).next_index_to_prefetch ∧
      (⟨[0], 1, 0⟩ : SchedState).next_index_to_prefetch ≤ 3 ∧
      (⟨[0], 1, 0⟩ : SchedState).prefetched.length ≤ 2 ∧
      (∀ x ∈ (⟨[0], 1, 0⟩ : SchedState).prefetched,
        (⟨[0], 1, 0⟩ : SchedState).current_index ≤ x ∧
          x < (⟨[0], 1, 0⟩ : SchedState).next_index_to_prefetch) ∧
      ((⟨[0], 1, 0⟩ : SchedState).current_index < 3 →
        (⟨[0], 1, 0⟩ : SchedState).current_index ∈
          (⟨[0], 1, 0⟩ : SchedState).prefetched)) :=
  ⟨Or.inl (by decide),
    claim_c4 (fun i => ⟨toString i, true, none⟩) 3 2 1 (fun _ => "")
      (by decide) (by decide) ⟨[0], 1, 0⟩ (Or.inl (by decide))⟩

/-- Each `print_layer` call increments exactly one of the two counters. -/
lemma applyPrintResult_sum (s : PrinterState) (r : PrintResult) :
    (applyPrintResult s r).successful_layers + (applyPrintResult s r).failed_layers =
      s.successful_layers + s.failed_layers + 1 := by
  unfold applyPrintResult
  by_cases h : r.success
  · simp [h]
    omega
  · simp [h]
    omega

/-- Each row of `normal_driver.automatic_mode` increments exactly one of
the two counters. -/
lemma applyAutoRow_sum (s : PrinterState) (r : AutoRowOut) :
    (applyAutoRow s r).successful_layers + (applyAutoRow s r).failed_layers =
      s.successful_layers + s.failed_layers + 1 := by
  unfold applyAutoRow
  by_cases h : r.success
  · simp [h]
    omega
  · simp [h]
    omega

/-- `normal_driver.automatic_mode` processes every row and increments
exactly one counter per row. -/
lemma automatic_mode_counts (rows : List (WorkRecord × RowEnv)) :
    ∀ s : PrinterState,
      (automatic_mode rows s).successful_layers +
          (automatic_mode rows s).failed_layers =
        s.successful_layers + s.failed_layers + rows.length := by
  induction rows with
  | nil =>
    intro s
    simp [automatic_mode]
  | cons re rest ih =>
    intro s
    unfold automatic_mode at ih ⊢
    rw [List.foldl_cons, ih (applyAutoRow s (automatic_row re.1 re.2)),
      applyAutoRow_sum]
    simp
    omega

/-- `multi_driver.automatic_mode_async` folds one outcome per row. -/
lemma automatic_mode_async_counts (rows : List (WorkRecord × RowEnv))
    (s : PrinterState) :
    (automatic_mode_async rows s).successful_layers +
        (automatic_mode_async rows s).failed_layers =
      s.successful_layers + s.failed_layers + rows.length := by
  unfold automatic_mode_async
  obtain ⟨h1, _⟩ := foldl_foldOutcome_counts
    (rows.map fun re => print_layer_async re.1 re.2.write re.2.fetch) s
  rw [h1, List.length_map]

/-- `normal_driver.supervised_mode` increments exactly one counter per
processed row, processes at most all rows, and processes all of them
when the user never aborts. -/
lemma supervised_mode_counts (folder : String) :
    ∀ (rows : List (WorkRecord × RowEnv)) (script : Nat → String) (k : Nat)
      (s : PrinterState) (arts : List String),
      ((supervised_mode folder rows script k s arts).ps.successful_layers +
          (supervised_mode folder rows script k s arts).ps.failed_layers =
        s.successful_layers + s.failed_layers +
          (supervised_mode folder rows script k s arts).processed) ∧
        (supervised_mode folder rows script k s arts).processed ≤ rows.length ∧
        ((supervised_mode folder rows script k s arts).aborted = false →
          (supervised_mode folder rows script k s arts).processed = rows.length) := by
  intro rows
  induction rows with
  | nil =>
    intro script k s arts
    simp [supervised_mode]
  | cons re rest ih =>
    intro script k s arts
    obtain ⟨layer, env⟩ := re
    by_cases hq : normInput (script k) = "q"
    · simp only [supervised_mode, if_pos hq]
      exact ⟨by omega, by omega, by intro h; simp at h⟩
    · by_cases hi : layer.errorField.getD "SUCCESS" ≠ "SUCCESS"
      · by_cases he : normInput (script (k + 1)) = "e"
        · simp only [supervised_mode, if_neg hq, if_pos hi, if_pos he]
          exact ⟨by omega, by omega, by intro h; simp at h⟩
        · simp only [supervised_mode, if_neg hq, if_pos hi, if_neg he]
          obtain ⟨ih1, ih2, ih3⟩ := ih script (k + 2)
            (applyPrintResult s (print_layer layer env))
            (arts ++ rowArtifacts folder layer (print_layer layer env))
          have hsum := applyPrintResult_sum s (print_layer layer env)
          refine ⟨by omega, by simp; omega, ?_⟩
          intro h
          have := ih3 h
          simp
          omega
      · simp only [supervised_mode, if_neg hq, if_neg hi]
        obtain ⟨ih1, ih2, ih3⟩ := ih script (k + 1)
          (applyPrintResult s (print_layer layer env))
          (arts ++ rowArtifacts folder layer (print_layer layer env))
        have hsum := applyPrintResult_sum s (print_layer layer env)
        refine ⟨by omega, by simp; omega, ?_⟩
        intro h
        have := ih3 h
        simp
        omega

/-- C5: in every mode, once the run loop ends,
`successfulLayers + failedLayers ≤ totalLayers`, and equality holds
whenever the run was not interactively aborted early (every processed
row increments exactly one of the two counters).  The four run loops:
`normal_driver.automatic_mode` and `multi_driver.automatic_mode_async`
never abort, so equality is unconditional there;
`normal_driver.supervised_mode` and
`smart_driver.supervised_mode_async` reach equality when no abort
occurred. -/
theorem claim_c5 (output_folder : String)
    (rowsNA rowsNS rowsM : List (WorkRecord × RowEnv))
    (scriptNS scriptS : Nat → String) (outcome : Nat → LayerOutcome) (total : Nat) :
    ((automatic_mode rowsNA initialState).successful_layers +
        (automatic_mode rowsNA initialState).failed_layers = rowsNA.length) ∧
      ((automatic_mode_async rowsM initialState).successful_layers +
        (automatic_mode_async rowsM initialState).failed_layers = rowsM.length) ∧
      ((supervised_mode output_folder rowsNS scriptNS 0 initialState
            []).ps.successful_layers +
          (supervised_mode output_folder rowsNS scriptNS 0 initialState
            []).ps.failed_layers ≤
        rowsNS.length) ∧
      ((supervised_mode output_folder rowsNS scriptNS 0 initialState []).aborted =
          false →
        (supervised_mode output_folder rowsNS scriptNS 0 initialState
            []).ps.successful_layers +
          (supervised_mode output_folder rowsNS scriptNS 0 initialState
            []).ps.failed_layers =
        rowsNS.length) ∧
      ((supervised_mode_async outcome total scriptS).ps.successful_layers +
        (supervised_mode_async outcome total scriptS).ps.failed_layers ≤ total) ∧
      ((supervised_mode_async outcome total scriptS).aborted = false →
        (supervised_mode_async outcome total scriptS).ps.successful_layers +
          (supervised_mode_async outcome total scriptS).ps.failed_layers = total) := by
  have hNA := automatic_mode_counts rowsNA initialState
  have hM := automatic_mode_async_counts rowsM initialState
  obtain ⟨hS1, hS2, hS3⟩ :=
    supervised_mode_counts output_folder rowsNS scriptNS 0 initialState []
  have h0a : initialState.successful_layers = 0 := rfl
  have h0b : initialState.failed_layers = 0 := rfl
  obtain ⟨hrun, hInv₀, hc₀⟩ :=
    supervisedRun_init outcome total 10 6 scriptS (by omega) (by omega)
  have hsm := smartLoop_counts outcome total 10 scriptS (by omega) (total + 1) 0
    (initState total 6) initialState [] []
    (List.range (initState total 6).next_index_to_prefetch) 0 hInv₀ (by omega)
  rw [← hrun] at hsm
  obtain ⟨hm1, hm2, hm3, hm4⟩ := hsm
  have hsma : supervised_mode_async outcome total scriptS =
      supervisedRun outcome total 10 6 scriptS := rfl
  rw [hsma]
  exact ⟨by omega, by omega, by omega, fun h => by have := hS3 h; omega,
    by omega, fun h => by have := hm4 h; omega⟩

/-- C5 witness: one-row automatic runs, a one-row non-aborted normal
supervised run, and a two-row non-aborted prefetch run. -/
theorem claim_c5_witness :
    ((automatic_mode [(⟨some "1", some "u", some "X"⟩, ⟨.ok, .ok⟩)]
          initialState).successful_layers +
        (automatic_mode [(⟨some "1", some "u", some "X"⟩, ⟨.ok, .ok⟩)]
          initialState).failed_layers = 1) ∧
      ((automatic_mode_async [(⟨some "1", some "u", none⟩, ⟨.ok, .err "down"⟩)]
          initialState).successful_layers +
        (automatic_mode_async [(⟨some "1", some "u", none⟩, ⟨.ok, .err "down"⟩)]
          initialState).failed_layers = 1) ∧
      ((supervised_mode "out" [(⟨some "1", none, none⟩, ⟨.ok, .ok⟩)] (fun _ => "") 0
            initialState []).ps.successful_layers +
        (supervised_mode "out" [(⟨some "1", none, none⟩, ⟨.ok, .ok⟩)] (fun _ => "") 0
            initialState []).ps.failed_layers = 1) ∧
      ((supervised_mode_async (fun _ => ⟨"n", true, none⟩) 2
            (fun _ => "")).ps.successful_layers +
        (supervised_mode_async (fun _ => ⟨"n", true, none⟩) 2
            (fun _ => "")).ps.failed_layers = 2) :=
  ⟨(claim_c5 "out" [(⟨some "1", some "u", some "X"⟩, ⟨.ok, .ok⟩)]
      [(⟨some "1", none, none⟩, ⟨.ok, .ok⟩)]
      [(⟨some "1", some "u", none⟩, ⟨.ok, .err "down"⟩)]
      (fun _ => "") (fun _ => "") (fun _ => ⟨"n", true, none⟩) 2).1,
    (claim_c5 "out" [(⟨some "1", some "u", some "X"⟩, ⟨.ok, .ok⟩)]
      [(⟨some "1", none, none⟩, ⟨.ok, .ok⟩)]
      [(⟨some "1", some "u", none⟩, ⟨.ok, .err "down"⟩)]
      (fun _ => "") (fun _ => "") (fun _ => ⟨"n", true, none⟩) 2).2.1,
    (claim_c5 "out" [(⟨some "1", some "u", some "X"⟩, ⟨.ok, .ok⟩)]
      [(⟨some "1", none, none⟩, ⟨.ok, .ok⟩)]
      [(⟨some "1", some "u", none⟩, ⟨.ok, .err "down"⟩)]
      (fun _ => "") (fun _ => "") (fun _ => ⟨"n", true, none⟩) 2).2.2.2.1
      (by decide),
    (claim_c5 "out" [(⟨some "1", some "u", some "X"⟩, ⟨.ok, .ok⟩)]
      [(⟨some "1", none, none⟩, ⟨.ok, .ok⟩)]
      [(⟨some "1", some "u", none⟩, ⟨.ok, .err "down"⟩)]
      (fun _ => "") (fun _ => "") (fun _ => ⟨"n", true, none⟩) 2).2.2.2.2.2
      (by decide)⟩

end FakePrinter
